import Mathlib

/-!
Shallow embedding of the akamai-playground Go repository.

The netlist definitions follow `src/netlist/network_list.go` (the canonical
network-list client) and the package plumbing in the netlist package file;
`getConfigVersionsURL` follows `GetConfigVersions` in the appsec package.
The external signed session (`session.Session`) executes the HTTP request and
decodes the JSON body into the caller-supplied target; it is modelled by the
`ExecResult` value a method call consumes.  Go runtime panics (nil-pointer
dereference, index out of range) are modelled by `none` in builders and by the
`Outcome.panicked` constructor in full method calls.
-/

namespace AkamaiGo

/-- JSON values, for modelling Go `encoding/json` marshalling of request
bodies.  Numbers are integers, which covers every numeric field here. -/
inductive Json where
  | str (s : String)
  | num (n : Int)
  | jbool (b : Bool)
  | arr (elems : List Json)
  | obj (fields : List (String × Json))
deriving Repr

/-- The keys of the entries of a `validation.Errors` map that failed. -/
abbrev ErrorKeys := List String

/-- The fields of a marshalled JSON object, in marshalling order. -/
abbrev JsonObj := List (String × Json)

/-- A hypermedia link with `href` and `method`, as in the anonymous Go link
structs that carry both fields. -/
structure LinkMethod where
  Href : String
  Method : String
deriving Repr, DecidableEq

/-- A hypermedia link carrying only `href`. -/
structure Link where
  Href : String
deriving Repr, DecidableEq

/-- The `links` block of `NetworkListResponse`. -/
structure NetworkListLinks where
  ActivateInProduction : LinkMethod
  ActivateInStaging : LinkMethod
  AppendItems : LinkMethod
  Retrieve : Link
  StatusInProduction : Link
  StatusInStaging : Link
  Update : LinkMethod
deriving Repr, DecidableEq

/-- `NetworkListResponse` encapsulates information about each network list.
The Go field `Type` is spelled `Type'` because `Type` is reserved in Lean. -/
structure NetworkListResponse where
  Name : String
  UniqueID : String
  SyncPoint : Int
  Type' : String
  NetworkListType : String
  ElementCount : Int
  ReadOnly : Bool
  Shared : Bool
  List : List String
  Links : NetworkListLinks
deriving Repr, DecidableEq

/-- `MessageNetworkList` is the common object that responds to DELETE
requests. -/
structure MessageNetworkList where
  Status : Int
  Name : String
  UniqueID : String
deriving Repr, DecidableEq

/-- The `links` block of `ActivationNetworkListResponse`. -/
structure ActivationLinks where
  AppendItems : LinkMethod
  Retrieve : Link
  StatusInProduction : Link
  StatusInStaging : Link
  SyncPointHistory : Link
  Update : LinkMethod
  ActivationDetails : Link
deriving Repr, DecidableEq

/-- `ActivationNetworkListResponse` represents an activation response. -/
structure ActivationNetworkListResponse where
  ActivationID : Int
  ActivationComments : String
  ActivationStatus : String
  SyncPoint : Int
  UniqueID : String
  Fast : Bool
  DispatchCount : Int
  Links : ActivationLinks
deriving Repr, DecidableEq

/-- The `links` block of `ListNetworkListsResponse`. -/
structure ListNetworkListsLinks where
  Create : LinkMethod
deriving Repr, DecidableEq

/-- `ListNetworkListsResponse` is the response of the fetching-lists method. -/
structure ListNetworkListsResponse where
  NetworkLists : List NetworkListResponse
  Links : ListNetworkListsLinks
deriving Repr, DecidableEq

/-- `NetworkType` is a Go `int` enumeration (`IP`, `GEO`). -/
abbrev NetworkType := Int

/-- `IP NetworkType = iota + 1`. -/
def IP : NetworkType := 1

/-- `GEO` follows `IP` in the same `iota + 1` block. -/
def GEO : NetworkType := 2

/-- `Environment` is a Go `int` enumeration (`STAGING`, `PRODUCTION`). -/
abbrev Environment := Int

/-- `STAGING Environment = iota + 1`. -/
def STAGING : Environment := 1

/-- `PRODUCTION` follows `STAGING` in the same `iota + 1` block. -/
def PRODUCTION : Environment := 2

/-- `NetworkType.String`: Go `[...]string{"IP", "GEO"}[n]`, indexing by the
enum value itself.  `none` models the index-out-of-range panic. -/
def networkTypeString (n : NetworkType) : Option String :=
  if n = 0 then some "IP" else if n = 1 then some "GEO" else none

/-- `Environment.String`: Go `[...]string{"STAGING", "PRODUCTION"}[e-1]`.
`none` models the index-out-of-range panic. -/
def environmentString (e : Environment) : Option String :=
  if e = 1 then some "STAGING" else if e = 2 then some "PRODUCTION" else none

/-- `strconv.FormatBool`. -/
def formatBool (b : Bool) : String :=
  if b then "true" else "false"

/-- `OptionalParams` represents optional parameters for several calls. -/
structure OptionalParams where
  Extended : Bool
  IncludeElements : Bool
deriving Repr, DecidableEq

/-- `ListNetworkListsRequest`; the `Option` models the embedded
`*OptionalParams` pointer. -/
structure ListNetworkListsRequest where
  optionalParams : Option OptionalParams
  ListType : NetworkType
  Search : String
deriving Repr, DecidableEq

/-- `GetNetworkListRequest`; the `Option` models the embedded
`*OptionalParams` pointer. -/
structure GetNetworkListRequest where
  optionalParams : Option OptionalParams
  NetworkListID : String
deriving Repr, DecidableEq

/-- `DeleteNetworkListRequest` wraps an embedded `*GetNetworkListRequest`. -/
structure DeleteNetworkListRequest where
  getNetworkListRequest : Option GetNetworkListRequest
deriving Repr, DecidableEq

/-- `UpdateNetworkListDetailsRequest` is a wrapper for updating NL details. -/
structure UpdateNetworkListDetailsRequest where
  Name : String
  Description : String
  NetworkListID : String
deriving Repr, DecidableEq

/-- `BodyNetworkListRequest` is the JSON body for creating and updating a
network list; the `Option` models the embedded `*GetNetworkListRequest`. -/
structure BodyNetworkListRequest where
  getNetworkListRequest : Option GetNetworkListRequest
  Name : String
  Type' : String
  Description : String
  List : List String
  ContractID : String
  GroupID : Int
deriving Repr, DecidableEq

/-- `CreateNetworkListRequest` wraps an embedded `*BodyNetworkListRequest`. -/
structure CreateNetworkListRequest where
  bodyNetworkListRequest : Option BodyNetworkListRequest
deriving Repr, DecidableEq

/-- `UpdateNetworkListRequest` wraps an embedded `*BodyNetworkListRequest`
plus the `syncPoint` field. -/
structure UpdateNetworkListRequest where
  bodyNetworkListRequest : Option BodyNetworkListRequest
  SyncPoint : Int
deriving Repr, DecidableEq

/-- `AppendListRequest` contains a list of elements to append. -/
structure AppendListRequest where
  List : List String
  NetworkListID : String
deriving Repr, DecidableEq

/-- `AddElementRequest` contains an element to add to the list. -/
structure AddElementRequest where
  NetworkListID : String
  Element : String
deriving Repr, DecidableEq

/-- `RemoveElementRequest` wraps an embedded `*AddElementRequest`. -/
structure RemoveElementRequest where
  addElementRequest : Option AddElementRequest
deriving Repr, DecidableEq

/-- `GetActivationSnapshotRequest` contains information for the snapshot
request. -/
structure GetActivationSnapshotRequest where
  NetworkListID : String
  Extended : Bool
  SyncPoint : Int
deriving Repr, DecidableEq

/-- `ActivateNetworkListRequest` is a wrapper for the Activate call. -/
structure ActivateNetworkListRequest where
  NetworkListID : String
  Environment : Environment
  Comments : String
  NotificationRecipients : List String
deriving Repr, DecidableEq

/-- `GetNetworkListRequest.Validate`: the returned list holds the keys of the
`validation.Errors` map entries that failed (`[]` means `Filter` returned
nil, i.e. no error). -/
def GetNetworkListRequest.validate (v : GetNetworkListRequest) : List String :=
  if v.NetworkListID = "" then ["networkListId"] else []

/-- `UpdateNetworkListRequest.Validate` reads
`v.GetNetworkListRequest.NetworkListID` through the embedded
`*BodyNetworkListRequest` and `*GetNetworkListRequest`; `none` models the
nil-pointer panic on either dereference. -/
def UpdateNetworkListRequest.validate (v : UpdateNetworkListRequest) :
    Option (List String) :=
  match v.bodyNetworkListRequest with
  | none => none
  | some b =>
    match b.getNetworkListRequest with
    | none => none
    | some g => some (if g.NetworkListID = "" then ["networkListId"] else [])

/-- `DeleteNetworkListRequest` has no own `Validate`; the promoted
`GetNetworkListRequest.Validate` is called on the embedded pointer, so a nil
pointer (`none`) panics. -/
def DeleteNetworkListRequest.validate (v : DeleteNetworkListRequest) :
    Option (List String) :=
  v.getNetworkListRequest.map GetNetworkListRequest.validate

/-- `AppendListRequest.Validate`. -/
def AppendListRequest.validate (v : AppendListRequest) : ErrorKeys :=
  if v.NetworkListID = "" then ["networkListId"] else []

/-- `AddElementRequest.Validate`; keys in the sorted order of the
`validation.Errors` map. -/
def AddElementRequest.validate (v : AddElementRequest) : List String :=
  (if v.Element = "" then ["element"] else []) ++
    (if v.NetworkListID = "" then ["networkListId"] else [])

/-- `RemoveElementRequest.Validate` reads the fields promoted through the
embedded `*AddElementRequest`; `none` models the nil-pointer panic. -/
def RemoveElementRequest.validate (v : RemoveElementRequest) :
    Option (List String) :=
  v.addElementRequest.map AddElementRequest.validate

/-- `ActivateNetworkListRequest.Validate`; `validation.Required` on the int
`Environment` fails exactly on the zero value. -/
def ActivateNetworkListRequest.validate (v : ActivateNetworkListRequest) :
    List String :=
  (if v.Environment = 0 then ["environment"] else []) ++
    (if v.NetworkListID = "" then ["networkListId"] else [])

/-- `GetActivationSnapshotRequest.Validate`. -/
def GetActivationSnapshotRequest.validate (v : GetActivationSnapshotRequest) :
    List String :=
  if v.NetworkListID = "" then ["networkListId"] else []

/-- `UpdateNetworkListDetailsRequest.Validate`; keys in the sorted order of
the `validation.Errors` map. -/
def UpdateNetworkListDetailsRequest.validate
    (v : UpdateNetworkListDetailsRequest) : List String :=
  (if v.Description = "" then ["description"] else []) ++
    (if v.Name = "" then ["name"] else []) ++
      (if v.NetworkListID = "" then ["networkListId"] else [])

/-- Query parameters added by `ListNetworkLists`, in `q.Add` order.  `none`
models a panic: the nil `*OptionalParams` dereference, or the index
out-of-range panic inside `NetworkType.String` in the `listType` switch. -/
def listNetworkListsQuery (params : ListNetworkListsRequest) :
    Option (List (String × String)) :=
  match params.optionalParams with
  | none => none
  | some op =>
    let q := [("extended", formatBool op.Extended),
      ("includeElements", formatBool op.IncludeElements)]
    let q := q ++ (if params.Search = "" then [] else [("search", params.Search)])
    if params.ListType = IP then
      (networkTypeString IP).map (fun s => q ++ [("listType", s)])
    else if params.ListType = GEO then
      (networkTypeString GEO).map (fun s => q ++ [("listType", s)])
    else
      some q

/-- Query parameters added by `GetNetworkList` (and, through field promotion,
by `UpdateNetworkList`), in `q.Add` order; `none` models the nil
`*OptionalParams` dereference. -/
def getNetworkListQuery (params : GetNetworkListRequest) :
    Option (List (String × String)) :=
  match params.optionalParams with
  | none => none
  | some op =>
    some [("extended", formatBool op.Extended),
      ("includeElements", formatBool op.IncludeElements)]

/-- `UpdateNetworkList` adds `extended` and `includeElements` from the fields
promoted through `*BodyNetworkListRequest` and `*GetNetworkListRequest`. -/
def updateNetworkListQuery (params : UpdateNetworkListRequest) :
    Option (List (String × String)) :=
  match params.bodyNetworkListRequest with
  | none => none
  | some b =>
    match b.getNetworkListRequest with
    | none => none
    | some g => getNetworkListQuery g

/-- Query parameter added by `AddElement` and `RemoveElement`. -/
def addElementQuery (params : AddElementRequest) : List (String × String) :=
  [("element", params.Element)]

/-- Query parameter added by `GetActivationSnapshot`. -/
def getActivationSnapshotQuery (params : GetActivationSnapshotRequest) :
    List (String × String) :=
  [("extended", formatBool params.Extended)]

/-- The collection path used by `ListNetworkLists` and `CreateNetworkList`. -/
def networkListsPath : String := "/network-list/v2/network-lists"

/-- The per-list path used by `GetNetworkList`, `UpdateNetworkList` and
`DeleteNetworkList`. -/
def networkListPath (id : String) : String :=
  "/network-list/v2/network-lists/" ++ id

/-- The path used by `AppendList`. -/
def appendListPath (id : String) : String :=
  "/network-list/v2/network-lists/" ++ id ++ "/append"

/-- The path used by `AddElement` and `RemoveElement`. -/
def elementsPath (id : String) : String :=
  "/network-list/v2/network-lists/" ++ id ++ "/elements"

/-- The path used by `ActivateNetworkList`, given the already rendered
environment segment. -/
def activatePath (id env : String) : String :=
  "/network-list/v2/network-lists/" ++ id ++ "/environments/" ++ env ++
    "/activate"

/-- The path used by `GetActivationNetworkList`. -/
def activationStatusPath (id env : String) : String :=
  "/network-list/v2/network-lists/" ++ id ++ "/environments/" ++ env ++
    "/status"

/-- The path used by `GetActivationSnapshot` (`%d` renders the sync point). -/
def snapshotPath (id : String) (syncPoint : Int) : String :=
  "/network-list/v2/network-lists/" ++ id ++ "/sync-points/" ++
    toString syncPoint ++ "/history"

/-- The path used by `UpdateNetworkListDetails`. -/
def detailsPath (id : String) : String :=
  "/network-list/v2/network-lists/" ++ id ++ "/details"

/-- The path built by `ActivateNetworkList`, calling `Environment.String`;
`none` models the panic on an out-of-range environment. -/
def activateNetworkListPath (params : ActivateNetworkListRequest) :
    Option String :=
  (environmentString params.Environment).map (activatePath params.NetworkListID)

/-- The path built by `GetActivationNetworkList`; `none` models the panic on
an out-of-range environment. -/
def getActivationNetworkListPath (params : ActivateNetworkListRequest) :
    Option String :=
  (environmentString params.Environment).map
    (activationStatusPath params.NetworkListID)

/-- `encoding/json` fields of an embedded `OptionalParams` (no struct tags,
so Go field names are used). -/
def OptionalParams.jsonFields (op : OptionalParams) : List (String × Json) :=
  [("Extended", .jbool op.Extended), ("IncludeElements", .jbool op.IncludeElements)]

/-- `encoding/json` fields of an embedded `GetNetworkListRequest`: the fields
of a nil embedded pointer are omitted; `NetworkListID` has no struct tag. -/
def GetNetworkListRequest.jsonFields (g : GetNetworkListRequest) :
    List (String × Json) :=
  (match g.optionalParams with
    | none => []
    | some op => op.jsonFields) ++ [("NetworkListID", .str g.NetworkListID)]

/-- `encoding/json` fields of `BodyNetworkListRequest`, with `omitempty` on
`contractId` and `groupId`. -/
def BodyNetworkListRequest.jsonFields (b : BodyNetworkListRequest) :
    JsonObj :=
  (match b.getNetworkListRequest with
    | none => []
    | some g => g.jsonFields) ++
  [("name", .str b.Name), ("type", .str b.Type'),
    ("description", .str b.Description), ("list", .arr (b.List.map .str))] ++
  (if b.ContractID = "" then [] else [("contractId", .str b.ContractID)]) ++
  (if b.GroupID = 0 then [] else [("groupId", .num b.GroupID)])

/-- `encoding/json` fields of `UpdateNetworkListRequest`: the embedded body's
fields followed by `syncPoint`. -/
def UpdateNetworkListRequest.jsonFields (u : UpdateNetworkListRequest) :
    List (String × Json) :=
  (match u.bodyNetworkListRequest with
    | none => []
    | some b => b.jsonFields) ++ [("syncPoint", .num u.SyncPoint)]

/-- `encoding/json` fields of `CreateNetworkListRequest`. -/
def CreateNetworkListRequest.jsonFields (c : CreateNetworkListRequest) :
    List (String × Json) :=
  match c.bodyNetworkListRequest with
  | none => []
  | some b => b.jsonFields

/-- `encoding/json` fields of `AppendListRequest` (`NetworkListID` has no
struct tag). -/
def AppendListRequest.jsonFields (a : AppendListRequest) : JsonObj :=
  [("list", .arr (a.List.map .str)), ("NetworkListID", .str a.NetworkListID)]

/-- `encoding/json` fields of `ActivateNetworkListRequest` (`NetworkListID`
and `Environment` have no struct tags). -/
def ActivateNetworkListRequest.jsonFields (a : ActivateNetworkListRequest) :
    List (String × Json) :=
  [("NetworkListID", .str a.NetworkListID), ("Environment", .num a.Environment),
    ("comments", .str a.Comments),
    ("notificationRecipients", .arr (a.NotificationRecipients.map .str))]

/-- `encoding/json` fields of `UpdateNetworkListDetailsRequest`
(`NetworkListID` has no struct tag). -/
def UpdateNetworkListDetailsRequest.jsonFields
    (u : UpdateNetworkListDetailsRequest) : List (String × Json) :=
  [("name", .str u.Name), ("description", .str u.Description),
    ("NetworkListID", .str u.NetworkListID)]

/-- The session transport outcome seen by a client method: either a
transport-level error from `Exec`, or an HTTP response with the given status
whose body the external session has decoded into the method's target type. -/
inductive ExecResult (α : Type) where
  | failure (msg : String)
  | response (status : Nat) (decoded : α)
deriving Repr, DecidableEq

/-- Outcome of one client method call.  `validationError fs` models an error
wrapping `ErrStructValidation` whose message carries the failed field keys
`fs`; `transportError` models the wrapped `Exec` error; `apiError st` models
`p.Error(resp)` on an unexpected status; `panicked` models a Go runtime
panic. -/
inductive Outcome (α : Type) where
  | success (a : α)
  | validationError (fields : List String)
  | transportError (msg : String)
  | apiError (status : Nat)
  | panicked
deriving Repr, DecidableEq

/-- What one client method call did: its returned outcome, whether the
session's `Exec` was invoked, and the serialized JSON body passed to `Exec`
(when a body was passed). -/
structure CallTrace (α : Type) where
  outcome : Outcome α
  execCalled : Bool
  bodySent : Option Json
deriving Repr

/-- Shared tail of every method: `p.Exec` followed by
`if resp.StatusCode != expected { return nil, p.Error(resp) }`. -/
def finishExec (expected : Nat) (exec : ExecResult α) : Outcome α :=
  match exec with
  | .failure msg => .transportError msg
  | .response st rv => if st = expected then .success rv else .apiError st

/-- `ListNetworkLists`: no validation; builds the query (which can panic),
then executes and expects 200. -/
def listNetworkLists (params : ListNetworkListsRequest)
    (exec : ExecResult ListNetworkListsResponse) :
    CallTrace ListNetworkListsResponse :=
  match listNetworkListsQuery params with
  | none => ⟨.panicked, false, none⟩
  | some _ => ⟨finishExec 200 exec, true, none⟩

/-- `GetNetworkList`: validates, builds the query (which can panic on a nil
`*OptionalParams`), executes, expects 200. -/
def getNetworkList (params : GetNetworkListRequest)
    (exec : ExecResult NetworkListResponse) : CallTrace NetworkListResponse :=
  match params.validate with
  | f :: fs => ⟨.validationError (f :: fs), false, none⟩
  | [] =>
    match getNetworkListQuery params with
    | none => ⟨.panicked, false, none⟩
    | some _ => ⟨finishExec 200 exec, true, none⟩

/-- `UpdateNetworkList`: validates (which can panic), builds the query (which
can panic), executes with the request value as body, expects 200. -/
def updateNetworkList (params : UpdateNetworkListRequest)
    (exec : ExecResult NetworkListResponse) : CallTrace NetworkListResponse :=
  match params.validate with
  | none => ⟨.panicked, false, none⟩
  | some (f :: fs) => ⟨.validationError (f :: fs), false, none⟩
  | some [] =>
    match updateNetworkListQuery params with
    | none => ⟨.panicked, false, none⟩
    | some _ => ⟨finishExec 200 exec, true, some (.obj params.jsonFields)⟩

/-- `CreateNetworkList`: no validation and no query; executes with the
request value as body and expects 201. -/
def createNetworkList (params : CreateNetworkListRequest)
    (exec : ExecResult NetworkListResponse) : CallTrace NetworkListResponse :=
  ⟨finishExec 201 exec, true, some (.obj params.jsonFields)⟩

/-- `DeleteNetworkList`: validates through the promoted method (which can
panic on a nil `*GetNetworkListRequest`); builds no query; executes and
expects 200. -/
def deleteNetworkList (params : DeleteNetworkListRequest)
    (exec : ExecResult MessageNetworkList) : CallTrace MessageNetworkList :=
  match params.validate with
  | none => ⟨.panicked, false, none⟩
  | some (f :: fs) => ⟨.validationError (f :: fs), false, none⟩
  | some [] => ⟨finishExec 200 exec, true, none⟩

/-- `AppendList`: validates, executes with the request value as body, expects
202 (accepted). -/
def appendList (params : AppendListRequest)
    (exec : ExecResult NetworkListResponse) : CallTrace NetworkListResponse :=
  match params.validate with
  | f :: fs => ⟨.validationError (f :: fs), false, none⟩
  | [] => ⟨finishExec 202 exec, true, some (.obj params.jsonFields)⟩

/-- `AddElement`: validates, adds the `element` query parameter, executes,
expects 200. -/
def addElement (params : AddElementRequest)
    (exec : ExecResult NetworkListResponse) : CallTrace NetworkListResponse :=
  match params.validate with
  | f :: fs => ⟨.validationError (f :: fs), false, none⟩
  | [] => ⟨finishExec 200 exec, true, none⟩

/-- `RemoveElement`: validates through promoted fields (which can panic on a
nil `*AddElementRequest`), adds the `element` query parameter, executes,
expects 200. -/
def removeElement (params : RemoveElementRequest)
    (exec : ExecResult NetworkListResponse) : CallTrace NetworkListResponse :=
  match params.validate with
  | none => ⟨.panicked, false, none⟩
  | some (f :: fs) => ⟨.validationError (f :: fs), false, none⟩
  | some [] => ⟨finishExec 200 exec, true, none⟩

/-- `ActivateNetworkList`: validates, builds the path via
`Environment.String` (which can panic), executes with the request value as
body, expects 200. -/
def activateNetworkList (params : ActivateNetworkListRequest)
    (exec : ExecResult ActivationNetworkListResponse) :
    CallTrace ActivationNetworkListResponse :=
  match params.validate with
  | f :: fs => ⟨.validationError (f :: fs), false, none⟩
  | [] =>
    match activateNetworkListPath params with
    | none => ⟨.panicked, false, none⟩
    | some _ => ⟨finishExec 200 exec, true, some (.obj params.jsonFields)⟩

/-- `GetActivationNetworkList`: validates, builds the status path via
`Environment.String` (which can panic), executes without a body, expects
200. -/
def getActivationNetworkList (params : ActivateNetworkListRequest)
    (exec : ExecResult ActivationNetworkListResponse) :
    CallTrace ActivationNetworkListResponse :=
  match params.validate with
  | f :: fs => ⟨.validationError (f :: fs), false, none⟩
  | [] =>
    match getActivationNetworkListPath params with
    | none => ⟨.panicked, false, none⟩
    | some _ => ⟨finishExec 200 exec, true, none⟩

/-- `GetActivationSnapshot`: validates, adds the `extended` query parameter,
executes, expects 200. -/
def getActivationSnapshot (params : GetActivationSnapshotRequest)
    (exec : ExecResult NetworkListResponse) : CallTrace NetworkListResponse :=
  match params.validate with
  | f :: fs => ⟨.validationError (f :: fs), false, none⟩
  | [] => ⟨finishExec 200 exec, true, none⟩

/-- `UpdateNetworkListDetails`: validates, executes with the request value as
body and a nil decode target, expects 204; the method returns only an
error, modelled as `Outcome Unit`. -/
def updateNetworkListDetails (params : UpdateNetworkListDetailsRequest)
    (exec : ExecResult Unit) : CallTrace Unit :=
  match params.validate with
  | f :: fs => ⟨.validationError (f :: fs), false, none⟩
  | [] => ⟨finishExec 204 exec, true, some (.obj params.jsonFields)⟩

/-- `GetConfigVersions` URL construction: the variadic `params ...string`
selects the query shape positionally by its length. -/
def getConfigVersionsURL (configID : Int) (params : List String) : String :=
  match params with
  | [p0] =>
    "/appsec/v1/configs/" ++ toString configID ++ "/versions?detail=" ++ p0
  | [p0, p1] =>
    "/appsec/v1/configs/" ++ toString configID ++ "/versions?page=" ++ p0 ++
      "&pageSize=" ++ p1
  | [p0, p1, p2] =>
    "/appsec/v1/configs/" ++ toString configID ++ "/versions?page=" ++ p0 ++
      "&pageSize=" ++ p1 ++ "&detail=" ++ p2
  | _ =>
    "/appsec/v1/configs/" ++ toString configID ++
      "/versions?page=1&pageSize=25&detail=true"

/-- The Go zero value of `LinkMethod`. -/
def emptyLinkMethod : LinkMethod := ⟨"", ""⟩

/-- The Go zero value of `Link`. -/
def emptyLink : Link := ⟨""⟩

/-- The Go zero value of `NetworkListLinks`. -/
def emptyNetworkListLinks : NetworkListLinks :=
  ⟨emptyLinkMethod, emptyLinkMethod, emptyLinkMethod, emptyLink, emptyLink,
    emptyLink, emptyLinkMethod⟩

/-- The Go zero value of `NetworkListResponse`. -/
def emptyNetworkListResponse : NetworkListResponse :=
  ⟨"", "", 0, "", "", 0, false, false, [], emptyNetworkListLinks⟩

/-- The Go zero value of `MessageNetworkList`. -/
def emptyMessageNetworkList : MessageNetworkList := ⟨0, "", ""⟩

/-- The Go zero value of `ActivationLinks`. -/
def emptyActivationLinks : ActivationLinks :=
  ⟨emptyLinkMethod, emptyLink, emptyLink, emptyLink, emptyLink,
    emptyLinkMethod, emptyLink⟩

/-- The Go zero value of `ActivationNetworkListResponse`. -/
def emptyActivationResponse : ActivationNetworkListResponse :=
  ⟨0, "", "", 0, "", false, 0, emptyActivationLinks⟩

/-- The zero-valued `NetworkListResponse` as decoded from the JSON body
`\x7b"list":["GB"]\x7d`: only the `list` field is set. -/
def gbListResponse : NetworkListResponse :=
  { emptyNetworkListResponse with List := ["GB"] }

/-- Looking a key up in a concatenation skips a left part in which the key
does not occur. -/
theorem lookup_append_of_eq_none {α β : Type} [BEq α] (xs ys : List (α × β))
    (k : α) (h : xs.lookup k = none) : (xs ++ ys).lookup k = ys.lookup k := by
  induction xs with
  | nil => simp
  | cons a xs ih =>
    obtain ⟨a1, b1⟩ := a
    rw [List.cons_append]
    rw [List.lookup] at h ⊢
    rcases Bool.eq_false_or_eq_true (k == a1) with hk | hk <;>
      rw [hk] at h ⊢ <;>
      first
        | exact ih h
        | exact Option.noConfusion h

/-- `syncPoint` is not a key of the marshalled fields of an embedded
`GetNetworkListRequest`. -/
theorem getNetworkListRequest_lookup_syncPoint (g : GetNetworkListRequest) :
    g.jsonFields.lookup "syncPoint" = none := by
  rcases g with ⟨op, id⟩
  cases op with
  | none => simp [GetNetworkListRequest.jsonFields, List.lookup]
  | some o =>
    simp [GetNetworkListRequest.jsonFields, OptionalParams.jsonFields,
      List.lookup]

/-- `syncPoint` is not a key of the marshalled fields of
`BodyNetworkListRequest`. -/
theorem body_lookup_syncPoint (b : BodyNetworkListRequest) :
    b.jsonFields.lookup "syncPoint" = none := by
  rcases b with ⟨g, nm, ty, ds, ls, cid, gid⟩
  rcases g with _ | ⟨op, id⟩
  · simp only [BodyNetworkListRequest.jsonFields]
    split_ifs <;> rfl
  · rcases op with _ | ⟨e, i⟩ <;>
      simp only [BodyNetworkListRequest.jsonFields,
        GetNetworkListRequest.jsonFields, OptionalParams.jsonFields] <;>
      split_ifs <;> rfl

/-- C1 (evaluation of the code at the failing inputs): the `listType`
parameter is indeed omitted for the unset zero value, but for `ListType = IP`
the query carries `listType=GEO` (because `NetworkType.String` indexes the
table `IP, GEO` by the enum value itself while `IP = 1`), and for
`ListType = GEO` the query build panics with an index out of range instead of
emitting `listType=GEO`. -/
theorem claim_C1_listType_eval :
    listNetworkListsQuery ⟨some ⟨false, false⟩, IP, ""⟩ =
      some [("extended", "false"), ("includeElements", "false"),
        ("listType", "GEO")] ∧
    listNetworkListsQuery ⟨some ⟨false, false⟩, GEO, ""⟩ = none ∧
    listNetworkListsQuery ⟨some ⟨false, false⟩, 0, ""⟩ =
      some [("extended", "false"), ("includeElements", "false")] := by
  refine ⟨rfl, rfl, rfl⟩

/-- C7: with `NetworkListID = "12345_TESTLIST"` and `Element = "GB"`,
`AddElement` builds the path
`/network-list/v2/network-lists/12345_TESTLIST/elements` with the single
query parameter `element=GB`, and a 200 response whose body decodes to the
zero value with `list = ["GB"]` yields a successful result whose `List`
equals `["GB"]`. -/
theorem claim_C7_add_element_scenario :
    elementsPath "12345_TESTLIST" =
      "/network-list/v2/network-lists/12345_TESTLIST/elements" ∧
    addElementQuery ⟨"12345_TESTLIST", "GB"⟩ = [("element", "GB")] ∧
    addElement ⟨"12345_TESTLIST", "GB"⟩ (.response 200 gbListResponse) =
      ⟨.success gbListResponse, true, none⟩ ∧
    gbListResponse.List = ["GB"] := by
  exact ⟨rfl, rfl, rfl, rfl⟩

/-- C8: `GetConfigVersions` builds its URL positionally from the variadic
trailing parameters: one parameter gives `detail=p1`, two give
`page=p1&pageSize=p2`, three give `page=p1&pageSize=p2&detail=p3`, and any
other count (zero, or four and more) falls back to
`page=1&pageSize=25&detail=true`; the path part is always
`/appsec/v1/configs/<configID>/versions`. -/
theorem claim_C8_getConfigVersions_url :
    (∀ (configID : Int) (p0 : String),
      getConfigVersionsURL configID [p0] =
        "/appsec/v1/configs/" ++ toString configID ++ "/versions?detail=" ++
          p0) ∧
    (∀ (configID : Int) (p0 p1 : String),
      getConfigVersionsURL configID [p0, p1] =
        "/appsec/v1/configs/" ++ toString configID ++ "/versions?page=" ++
          p0 ++ "&pageSize=" ++ p1) ∧
    (∀ (configID : Int) (p0 p1 p2 : String),
      getConfigVersionsURL configID [p0, p1, p2] =
        "/appsec/v1/configs/" ++ toString configID ++ "/versions?page=" ++
          p0 ++ "&pageSize=" ++ p1 ++ "&detail=" ++ p2) ∧
    (∀ configID : Int,
      getConfigVersionsURL configID [] =
        "/appsec/v1/configs/" ++ toString configID ++
          "/versions?page=1&pageSize=25&detail=true") ∧
    (∀ (configID : Int) (p0 p1 p2 p3 : String) (rest : List String),
      getConfigVersionsURL configID (p0 :: p1 :: p2 :: p3 :: rest) =
        "/appsec/v1/configs/" ++ toString configID ++
          "/versions?page=1&pageSize=25&detail=true") ∧
    (∀ (configID : Int) (ps : List String), ∃ q,
      getConfigVersionsURL configID ps =
        "/appsec/v1/configs/" ++ toString configID ++ "/versions?" ++ q) := by
  refine ⟨fun _ _ => rfl, fun _ _ _ => rfl, fun _ _ _ _ => rfl, fun _ => rfl,
    fun _ _ _ _ _ _ => rfl, fun configID ps => ?_⟩
  match ps with
  | [] =>
    refine ⟨"page=1&pageSize=25&detail=true", ?_⟩
    simp only [getConfigVersionsURL, String.append_assoc]
    rfl
  | [p0] =>
    refine ⟨"detail=" ++ p0, ?_⟩
    simp only [getConfigVersionsURL, String.append_assoc]
    rw [show ("/versions?" ++ ("detail=" ++ p0) : String) =
      "/versions?detail=" ++ p0 by rw [← String.append_assoc]; rfl]
  | [p0, p1] =>
    refine ⟨"page=" ++ p0 ++ "&pageSize=" ++ p1, ?_⟩
    simp only [getConfigVersionsURL, String.append_assoc]
    rw [show ("/versions?" ++ ("page=" ++ (p0 ++ ("&pageSize=" ++ p1))) :
        String) = "/versions?page=" ++ (p0 ++ ("&pageSize=" ++ p1)) by
      rw [← String.append_assoc]; rfl]
  | [p0, p1, p2] =>
    refine ⟨"page=" ++ p0 ++ "&pageSize=" ++ p1 ++ "&detail=" ++ p2, ?_⟩
    simp only [getConfigVersionsURL, String.append_assoc]
    rw [show ("/versions?" ++
        ("page=" ++ (p0 ++ ("&pageSize=" ++ (p1 ++ ("&detail=" ++ p2))))) :
        String) =
      "/versions?page=" ++ (p0 ++ ("&pageSize=" ++ (p1 ++ ("&detail=" ++ p2))))
      by rw [← String.append_assoc]; rfl]
  | p0 :: p1 :: p2 :: p3 :: rest =>
    refine ⟨"page=1&pageSize=25&detail=true", ?_⟩
    simp only [getConfigVersionsURL, String.append_assoc]
    rfl

/-- C9 (counterexample): `DeleteNetworkList` builds no query string and never
dereferences the `*OptionalParams` pointer, so with a nil `*OptionalParams`
and a non-empty identifier the call does not panic: it invokes the transport
and returns the decoded result. -/
theorem claim_C9_counterexample :
    deleteNetworkList ⟨some ⟨none, "12345_TESTLIST"⟩⟩
        (.response 200 emptyMessageNetworkList) =
      ⟨.success emptyMessageNetworkList, true, none⟩ := by
  rfl

/-- C4 (counterexample): `AddElementRequest` has the required identifier
field `NetworkListID`, yet validating an instance with a non-empty identifier
and an empty `Element` yields a validation error (keyed `element`), refuting
the claim that a non-empty identifier always validates without error. -/
theorem claim_C4_counterexample :
    ("12345_TESTLIST" ≠ "") ∧
    AddElementRequest.validate ⟨"12345_TESTLIST", ""⟩ = ["element"] := by
  exact ⟨by decide, rfl⟩

/-- C3: for every network-list operation that validates its request
(`GetNetworkList`, `UpdateNetworkList`, `DeleteNetworkList`, `AppendList`,
`AddElement`, `RemoveElement`, `ActivateNetworkList`,
`GetActivationNetworkList`, `GetActivationSnapshot`,
`UpdateNetworkListDetails`), a failing validation makes the method return the
error wrapping `ErrStructValidation` that carries the field-level messages,
and the session's `Exec` is never invoked. -/
theorem claim_C3_validation_short_circuits :
    (∀ (p : GetNetworkListRequest) (e : ExecResult NetworkListResponse)
        (f : String) (fs : List String), p.validate = f :: fs →
      getNetworkList p e = ⟨.validationError (f :: fs), false, none⟩) ∧
    (∀ (p : UpdateNetworkListRequest) (e : ExecResult NetworkListResponse)
        (f : String) (fs : List String), p.validate = some (f :: fs) →
      updateNetworkList p e = ⟨.validationError (f :: fs), false, none⟩) ∧
    (∀ (p : DeleteNetworkListRequest) (e : ExecResult MessageNetworkList)
        (f : String) (fs : List String), p.validate = some (f :: fs) →
      deleteNetworkList p e = ⟨.validationError (f :: fs), false, none⟩) ∧
    (∀ (p : AppendListRequest) (e : ExecResult NetworkListResponse)
        (f : String) (fs : List String), p.validate = f :: fs →
      appendList p e = ⟨.validationError (f :: fs), false, none⟩) ∧
    (∀ (p : AddElementRequest) (e : ExecResult NetworkListResponse)
        (f : String) (fs : List String), p.validate = f :: fs →
      addElement p e = ⟨.validationError (f :: fs), false, none⟩) ∧
    (∀ (p : RemoveElementRequest) (e : ExecResult NetworkListResponse)
        (f : String) (fs : List String), p.validate = some (f :: fs) →
      removeElement p e = ⟨.validationError (f :: fs), false, none⟩) ∧
    (∀ (p : ActivateNetworkListRequest)
        (e : ExecResult ActivationNetworkListResponse)
        (f : String) (fs : List String), p.validate = f :: fs →
      activateNetworkList p e = ⟨.validationError (f :: fs), false, none⟩) ∧
    (∀ (p : ActivateNetworkListRequest)
        (e : ExecResult ActivationNetworkListResponse)
        (f : String) (fs : List String), p.validate = f :: fs →
      getActivationNetworkList p e =
        ⟨.validationError (f :: fs), false, none⟩) ∧
    (∀ (p : GetActivationSnapshotRequest) (e : ExecResult NetworkListResponse)
        (f : String) (fs : List String), p.validate = f :: fs →
      getActivationSnapshot p e = ⟨.validationError (f :: fs), false, none⟩) ∧
    (∀ (p : UpdateNetworkListDetailsRequest) (e : ExecResult Unit)
        (f : String) (fs : List String), p.validate = f :: fs →
      updateNetworkListDetails p e =
        ⟨.validationError (f :: fs), false, none⟩) := by
  refine ⟨fun p e f fs h => ?_, fun p e f fs h => ?_, fun p e f fs h => ?_,
    fun p e f fs h => ?_, fun p e f fs h => ?_, fun p e f fs h => ?_,
    fun p e f fs h => ?_, fun p e f fs h => ?_, fun p e f fs h => ?_,
    fun p e f fs h => ?_⟩
  · rw [getNetworkList, h]
  · rw [updateNetworkList, h]
  · rw [deleteNetworkList, h]
  · rw [appendList, h]
  · rw [addElement, h]
  · rw [removeElement, h]
  · rw [activateNetworkList, h]
  · rw [getActivationNetworkList, h]
  · rw [getActivationSnapshot, h]
  · rw [updateNetworkListDetails, h]

/-- C3 witness: a concrete `GetNetworkList` call with an empty identifier
fails validation on the `networkListId` key without invoking the
transport. -/
theorem claim_C3_witness :
    getNetworkList ⟨none, ""⟩ (.response 200 emptyNetworkListResponse) =
      ⟨.validationError ["networkListId"], false, none⟩ := by
  exact claim_C3_validation_short_circuits.1 ⟨none, ""⟩
    (.response 200 emptyNetworkListResponse) "networkListId" [] rfl

/-- C2: every network-list operation, on a request that reaches the
transport, returns the decoded response exactly when the transport returns
that operation's one documented success status (200 for reads and updates,
201 for `CreateNetworkList`, 202 for `AppendList`, 204 for
`UpdateNetworkListDetails`), and on any other status returns no result and
the error produced by the session's structured-error extraction
(`p.Error(resp)`); in particular `CreateNetworkList` succeeds exactly on
201. -/
theorem claim_C2_success_status_contract :
    (∀ (p : ListNetworkListsRequest) (op : OptionalParams),
      p.optionalParams = some op → p.ListType ≠ GEO →
      ∀ (st : Nat) (rv : ListNetworkListsResponse),
      (listNetworkLists p (.response st rv)).outcome =
        if st = 200 then .success rv else .apiError st) ∧
    (∀ (p : GetNetworkListRequest) (op : OptionalParams),
      p.optionalParams = some op → p.NetworkListID ≠ "" →
      ∀ (st : Nat) (rv : NetworkListResponse),
      (getNetworkList p (.response st rv)).outcome =
        if st = 200 then .success rv else .apiError st) ∧
    (∀ (p : UpdateNetworkListRequest) (b : BodyNetworkListRequest)
        (g : GetNetworkListRequest) (op : OptionalParams),
      p.bodyNetworkListRequest = some b → b.getNetworkListRequest = some g →
      g.optionalParams = some op → g.NetworkListID ≠ "" →
      ∀ (st : Nat) (rv : NetworkListResponse),
      (updateNetworkList p (.response st rv)).outcome =
        if st = 200 then .success rv else .apiError st) ∧
    (∀ (p : CreateNetworkListRequest) (st : Nat) (rv : NetworkListResponse),
      (createNetworkList p (.response st rv)).outcome =
        if st = 201 then .success rv else .apiError st) ∧
    (∀ (g : GetNetworkListRequest), g.NetworkListID ≠ "" →
      ∀ (st : Nat) (rv : MessageNetworkList),
      (deleteNetworkList ⟨some g⟩ (.response st rv)).outcome =
        if st = 200 then .success rv else .apiError st) ∧
    (∀ (p : AppendListRequest), p.NetworkListID ≠ "" →
      ∀ (st : Nat) (rv : NetworkListResponse),
      (appendList p (.response st rv)).outcome =
        if st = 202 then .success rv else .apiError st) ∧
    (∀ (p : AddElementRequest), p.NetworkListID ≠ "" → p.Element ≠ "" →
      ∀ (st : Nat) (rv : NetworkListResponse),
      (addElement p (.response st rv)).outcome =
        if st = 200 then .success rv else .apiError st) ∧
    (∀ (a : AddElementRequest), a.NetworkListID ≠ "" → a.Element ≠ "" →
      ∀ (st : Nat) (rv : NetworkListResponse),
      (removeElement ⟨some a⟩ (.response st rv)).outcome =
        if st = 200 then .success rv else .apiError st) ∧
    (∀ (p : ActivateNetworkListRequest), p.NetworkListID ≠ "" →
      (p.Environment = STAGING ∨ p.Environment = PRODUCTION) →
      ∀ (st : Nat) (rv : ActivationNetworkListResponse),
      (activateNetworkList p (.response st rv)).outcome =
        if st = 200 then .success rv else .apiError st) ∧
    (∀ (p : ActivateNetworkListRequest), p.NetworkListID ≠ "" →
      (p.Environment = STAGING ∨ p.Environment = PRODUCTION) →
      ∀ (st : Nat) (rv : ActivationNetworkListResponse),
      (getActivationNetworkList p (.response st rv)).outcome =
        if st = 200 then .success rv else .apiError st) ∧
    (∀ (p : GetActivationSnapshotRequest), p.NetworkListID ≠ "" →
      ∀ (st : Nat) (rv : NetworkListResponse),
      (getActivationSnapshot p (.response st rv)).outcome =
        if st = 200 then .success rv else .apiError st) ∧
    (∀ (p : UpdateNetworkListDetailsRequest), p.NetworkListID ≠ "" →
      p.Name ≠ "" → p.Description ≠ "" → ∀ (st : Nat),
      (updateNetworkListDetails p (.response st ())).outcome =
        if st = 204 then .success () else .apiError st) := by
  refine ⟨?_, ?_, ?_, ?_, ?_, ?_, ?_, ?_, ?_, ?_, ?_, ?_⟩
  · intro p op h hlt st rv
    by_cases hip : p.ListType = IP
    · simp [listNetworkLists, listNetworkListsQuery, h, hip, networkTypeString,
        IP, finishExec]
    · simp [listNetworkLists, listNetworkListsQuery, h, hip, hlt,
        networkTypeString, finishExec]
  · intro p op h hid st rv
    simp [getNetworkList, GetNetworkListRequest.validate, hid,
      getNetworkListQuery, h, finishExec]
  · intro p b g op hb hg hop hid st rv
    simp [updateNetworkList, UpdateNetworkListRequest.validate, hb, hg, hid,
      updateNetworkListQuery, getNetworkListQuery, hop, finishExec]
  · intro p st rv
    simp [createNetworkList, finishExec]
  · intro g hid st rv
    simp [deleteNetworkList, DeleteNetworkListRequest.validate,
      GetNetworkListRequest.validate, hid, finishExec]
  · intro p hid st rv
    simp [appendList, AppendListRequest.validate, hid, finishExec]
  · intro p hid hel st rv
    simp [addElement, AddElementRequest.validate, hid, hel, finishExec]
  · intro a hid hel st rv
    simp [removeElement, RemoveElementRequest.validate,
      AddElementRequest.validate, hid, hel, finishExec]
  · intro p hid henv st rv
    rcases henv with h | h <;>
      simp [activateNetworkList, ActivateNetworkListRequest.validate, hid, h,
        STAGING, PRODUCTION, activateNetworkListPath, environmentString,
        finishExec]
  · intro p hid henv st rv
    rcases henv with h | h <;>
      simp [getActivationNetworkList, ActivateNetworkListRequest.validate,
        hid, h, STAGING, PRODUCTION, getActivationNetworkListPath,
        environmentString, finishExec]
  · intro p hid st rv
    simp [getActivationSnapshot, GetActivationSnapshotRequest.validate, hid,
      finishExec]
  · intro p hid hnm hds st
    simp [updateNetworkListDetails, UpdateNetworkListDetailsRequest.validate,
      hid, hnm, hds, finishExec]

/-- C2 witness: a concrete valid `GetNetworkList` call decodes the body on
200 and surfaces the structured API error on 404. -/
theorem claim_C2_witness :
    (getNetworkList ⟨some ⟨true, true⟩, "x"⟩
        (.response 404 emptyNetworkListResponse)).outcome =
      .apiError 404 ∧
    (getNetworkList ⟨some ⟨true, true⟩, "x"⟩
        (.response 200 emptyNetworkListResponse)).outcome =
      .success emptyNetworkListResponse := by
  constructor
  · simpa using claim_C2_success_status_contract.2.1 ⟨some ⟨true, true⟩, "x"⟩
      ⟨true, true⟩ rfl (by decide) 404 emptyNetworkListResponse
  · simpa using claim_C2_success_status_contract.2.1 ⟨some ⟨true, true⟩, "x"⟩
      ⟨true, true⟩ rfl (by decide) 200 emptyNetworkListResponse

/-- C5: `GetNetworkList` serializes exactly the two boolean parameters
`extended` and `includeElements` whatever their values, and whenever
`ListNetworkLists` builds its query the two boolean parameters are present
while `search` is present exactly when the search filter is non-empty; the
query does get built whenever the list type is not the panicking `GEO`
value. -/
theorem claim_C5_boolean_params_always_emitted :
    (∀ (p : GetNetworkListRequest) (op : OptionalParams),
      p.optionalParams = some op →
      getNetworkListQuery p =
        some [("extended", formatBool op.Extended),
          ("includeElements", formatBool op.IncludeElements)]) ∧
    (∀ (p : ListNetworkListsRequest) (op : OptionalParams)
        (q : List (String × String)),
      p.optionalParams = some op → listNetworkListsQuery p = some q →
      ("extended", formatBool op.Extended) ∈ q ∧
      ("includeElements", formatBool op.IncludeElements) ∈ q ∧
      (("search", p.Search) ∈ q ↔ p.Search ≠ "")) ∧
    (∀ (p : ListNetworkListsRequest) (op : OptionalParams),
      p.optionalParams = some op → p.ListType ≠ GEO →
      ∃ q, listNetworkListsQuery p = some q) := by
  refine ⟨fun p op h => by simp [getNetworkListQuery, h], ?_, ?_⟩
  · intro p op q h hq
    rw [listNetworkListsQuery, h] at hq
    simp only [IP, GEO] at hq
    by_cases hS : p.Search = "" <;>
      by_cases hip : p.ListType = 1 <;>
      by_cases hgeo : p.ListType = 2 <;>
      simp [hS, hip, hgeo, networkTypeString] at hq <;>
      subst hq <;>
      simp [hS]
  · intro p op h hgeo
    rw [listNetworkListsQuery, h]
    simp only [IP, GEO]
    by_cases hip : p.ListType = 1
    · simp [hip, networkTypeString]
    · by_cases hg2 : p.ListType = 2
      · exact absurd hg2 hgeo
      · simp [hip, hg2]

/-- C5 witness: a concrete `GetNetworkList` query with both booleans false
still carries both parameters. -/
theorem claim_C5_witness :
    getNetworkListQuery ⟨some ⟨false, false⟩, "id"⟩ =
      some [("extended", "false"), ("includeElements", "false")] := by
  simpa [formatBool] using
    claim_C5_boolean_params_always_emitted.1 ⟨some ⟨false, false⟩, "id"⟩
      ⟨false, false⟩ rfl

/-- C6: `UpdateNetworkList` passes the caller's request value as the outgoing
body, and the serialized body's `syncPoint` field equals the `SyncPoint` of
the request the caller supplied. -/
theorem claim_C6_sync_point_unchanged :
    ∀ (p : UpdateNetworkListRequest) (b : BodyNetworkListRequest)
      (g : GetNetworkListRequest) (op : OptionalParams),
      p.bodyNetworkListRequest = some b → b.getNetworkListRequest = some g →
      g.optionalParams = some op → g.NetworkListID ≠ "" →
      ∀ (exec : ExecResult NetworkListResponse),
      (updateNetworkList p exec).bodySent = some (.obj p.jsonFields) ∧
      p.jsonFields.lookup "syncPoint" = some (.num p.SyncPoint) := by
  intro p b g op hb hg hop hid exec
  constructor
  · simp [updateNetworkList, UpdateNetworkListRequest.validate, hb, hg, hid,
      updateNetworkListQuery, getNetworkListQuery, hop]
  · rw [UpdateNetworkListRequest.jsonFields, hb,
      lookup_append_of_eq_none _ _ _ (body_lookup_syncPoint b)]
    rfl

/-- C6 witness: a concrete update request with `SyncPoint = 42` sends its own
serialization as the body, whose `syncPoint` field is 42. -/
theorem claim_C6_witness :
    (updateNetworkList
        ⟨some ⟨some ⟨some ⟨true, true⟩, "id1"⟩, "nm", "GEO", "dsc", ["CH"],
          "", 0⟩, 42⟩
        (.response 200 emptyNetworkListResponse)).bodySent =
      some (.obj (UpdateNetworkListRequest.jsonFields
        ⟨some ⟨some ⟨some ⟨true, true⟩, "id1"⟩, "nm", "GEO", "dsc", ["CH"],
          "", 0⟩, 42⟩)) ∧
    (UpdateNetworkListRequest.jsonFields
        ⟨some ⟨some ⟨some ⟨true, true⟩, "id1"⟩, "nm", "GEO", "dsc", ["CH"],
          "", 0⟩, 42⟩).lookup "syncPoint" =
      some (.num 42) := by
  exact claim_C6_sync_point_unchanged
    ⟨some ⟨some ⟨some ⟨true, true⟩, "id1"⟩, "nm", "GEO", "dsc", ["CH"], "",
      0⟩, 42⟩
    ⟨some ⟨some ⟨true, true⟩, "id1"⟩, "nm", "GEO", "dsc", ["CH"], "", 0⟩
    ⟨some ⟨true, true⟩, "id1"⟩ ⟨true, true⟩ rfl rfl rfl (by decide)
    (.response 200 emptyNetworkListResponse)

/-- C4 (amended): for every network-list request type with a required
identifier field, validating an instance with an empty identifier yields a
validation error keyed `networkListId`, and a non-empty identifier never
produces an error keyed by the identifier field; validation succeeds outright
exactly when the type's other required fields (`element` for add/remove
element, `environment` for activation, `name` and `description` for the
details update) are also non-empty; the delete and remove-element wrappers
delegate to the validator of the embedded request. -/
theorem claim_C4_amended_identifier_validation :
    (∀ v : GetNetworkListRequest,
      ("networkListId" ∈ v.validate ↔ v.NetworkListID = "") ∧
      (v.validate = [] ↔ v.NetworkListID ≠ "")) ∧
    (∀ (u : UpdateNetworkListRequest) (b : BodyNetworkListRequest)
        (g : GetNetworkListRequest),
      u.bodyNetworkListRequest = some b → b.getNetworkListRequest = some g →
      (u.validate = some ["networkListId"] ↔ g.NetworkListID = "") ∧
      (u.validate = some [] ↔ g.NetworkListID ≠ "")) ∧
    (∀ g : GetNetworkListRequest,
      DeleteNetworkListRequest.validate ⟨some g⟩ = some g.validate) ∧
    (∀ v : AppendListRequest,
      ("networkListId" ∈ v.validate ↔ v.NetworkListID = "") ∧
      (v.validate = [] ↔ v.NetworkListID ≠ "")) ∧
    (∀ v : AddElementRequest,
      ("networkListId" ∈ v.validate ↔ v.NetworkListID = "") ∧
      (v.validate = [] ↔ (v.NetworkListID ≠ "" ∧ v.Element ≠ ""))) ∧
    (∀ a : AddElementRequest,
      RemoveElementRequest.validate ⟨some a⟩ = some a.validate) ∧
    (∀ v : ActivateNetworkListRequest,
      ("networkListId" ∈ v.validate ↔ v.NetworkListID = "") ∧
      (v.validate = [] ↔ (v.NetworkListID ≠ "" ∧ v.Environment ≠ 0))) ∧
    (∀ v : GetActivationSnapshotRequest,
      ("networkListId" ∈ v.validate ↔ v.NetworkListID = "") ∧
      (v.validate = [] ↔ v.NetworkListID ≠ "")) ∧
    (∀ v : UpdateNetworkListDetailsRequest,
      ("networkListId" ∈ v.validate ↔ v.NetworkListID = "") ∧
      (v.validate = [] ↔
        (v.NetworkListID ≠ "" ∧ v.Name ≠ "" ∧ v.Description ≠ ""))) := by
  refine ⟨?_, ?_, fun g => rfl, ?_, ?_, fun a => rfl, ?_, ?_, ?_⟩
  · intro v
    rw [GetNetworkListRequest.validate]
    split_ifs with h <;> simp [h]
  · intro u b g hb hg
    simp only [UpdateNetworkListRequest.validate, hb, hg]
    split_ifs with h <;> simp [h]
  · intro v
    rw [AppendListRequest.validate]
    split_ifs with h <;> simp [h]
  · intro v
    rw [AddElementRequest.validate]
    split_ifs <;> simp_all
  · intro v
    rw [ActivateNetworkListRequest.validate]
    split_ifs <;> simp_all
  · intro v
    rw [GetActivationSnapshotRequest.validate]
    split_ifs with h <;> simp [h]
  · intro v
    rw [UpdateNetworkListDetailsRequest.validate]
    split_ifs <;> simp_all

/-- C4 witness: an empty identifier is flagged under the `networkListId` key,
and a fully populated add-element request validates cleanly. -/
theorem claim_C4_witness :
    ("networkListId" ∈ GetNetworkListRequest.validate ⟨none, ""⟩) ∧
    AddElementRequest.validate ⟨"x", "GB"⟩ = [] := by
  constructor
  · exact (claim_C4_amended_identifier_validation.1 ⟨none, ""⟩).1.mpr rfl
  · exact (claim_C4_amended_identifier_validation.2.2.2.2.1
      ⟨"x", "GB"⟩).2.mpr ⟨by decide, by decide⟩

/-- C9 (amended): `GetNetworkList` with a nil `*OptionalParams` panics during
query construction provided the identifier is non-empty (with an empty
identifier validation fails first and a validation error is returned);
`UpdateNetworkList` panics inside `Validate` when the embedded
`*BodyNetworkListRequest` or `*GetNetworkListRequest` is nil, and during
query construction when only `*OptionalParams` is nil and the identifier is
non-empty; `DeleteNetworkList` builds no query and never dereferences
`*OptionalParams`, so it does not panic on a nil `*OptionalParams`. -/
theorem claim_C9_amended_nil_pointer_panics :
    (∀ (id : String) (exec : ExecResult NetworkListResponse), id ≠ "" →
      getNetworkList ⟨none, id⟩ exec = ⟨.panicked, false, none⟩) ∧
    (∀ (p : UpdateNetworkListRequest) (exec : ExecResult NetworkListResponse),
      p.bodyNetworkListRequest = none →
      updateNetworkList p exec = ⟨.panicked, false, none⟩) ∧
    (∀ (p : UpdateNetworkListRequest) (b : BodyNetworkListRequest)
        (exec : ExecResult NetworkListResponse),
      p.bodyNetworkListRequest = some b → b.getNetworkListRequest = none →
      updateNetworkList p exec = ⟨.panicked, false, none⟩) ∧
    (∀ (p : UpdateNetworkListRequest) (b : BodyNetworkListRequest)
        (g : GetNetworkListRequest) (exec : ExecResult NetworkListResponse),
      p.bodyNetworkListRequest = some b → b.getNetworkListRequest = some g →
      g.optionalParams = none → g.NetworkListID ≠ "" →
      updateNetworkList p exec = ⟨.panicked, false, none⟩) ∧
    (∀ (g : GetNetworkListRequest) (exec : ExecResult MessageNetworkList),
      g.NetworkListID ≠ "" →
      (deleteNetworkList ⟨some g⟩ exec).outcome ≠ .panicked ∧
      (deleteNetworkList ⟨some g⟩ exec).execCalled = true) ∧
    (∀ exec : ExecResult NetworkListResponse,
      (getNetworkList ⟨none, ""⟩ exec).outcome =
        .validationError ["networkListId"]) := by
  refine ⟨?_, ?_, ?_, ?_, ?_, fun exec => rfl⟩
  · intro id exec hid
    simp [getNetworkList, GetNetworkListRequest.validate, hid,
      getNetworkListQuery]
  · intro p exec hb
    simp [updateNetworkList, UpdateNetworkListRequest.validate, hb]
  · intro p b exec hb hg
    simp [updateNetworkList, UpdateNetworkListRequest.validate, hb, hg]
  · intro p b g exec hb hg hop hid
    simp [updateNetworkList, UpdateNetworkListRequest.validate, hb, hg, hid,
      updateNetworkListQuery, getNetworkListQuery, hop]
  · intro g exec hid
    have hv : deleteNetworkList ⟨some g⟩ exec = ⟨finishExec 200 exec, true, none⟩ := by
      simp [deleteNetworkList, DeleteNetworkListRequest.validate,
        GetNetworkListRequest.validate, hid]
    rw [hv]
    refine ⟨?_, rfl⟩
    cases exec with
    | failure msg => simp [finishExec]
    | response st rv =>
      simp only [finishExec]
      split <;> simp

/-- C9 witness: a concrete `GetNetworkList` call with a nil `*OptionalParams`
and a non-empty identifier panics before reaching the transport. -/
theorem claim_C9_witness :
    getNetworkList ⟨none, "x"⟩ (.response 200 emptyNetworkListResponse) =
      ⟨.panicked, false, none⟩ := by
  exact claim_C9_amended_nil_pointer_panics.1 "x"
    (.response 200 emptyNetworkListResponse) (by decide)

/-- C10: `Environment.String` maps `STAGING` (1) to `"STAGING"` and
`PRODUCTION` (2) to `"PRODUCTION"` and panics on every other value; since
`ActivateNetworkListRequest.Validate` only requires a non-zero environment,
an activation with any non-zero environment outside the two defined values
passes validation and then panics while building the path, while for the two
defined values the panic branch is unreachable and the path embeds exactly
that environment string. -/
theorem claim_C10_environment_string_panics :
    environmentString STAGING = some "STAGING" ∧
    environmentString PRODUCTION = some "PRODUCTION" ∧
    (∀ e : Environment, e ≠ STAGING → e ≠ PRODUCTION →
      environmentString e = none) ∧
    (∀ (p : ActivateNetworkListRequest)
        (exec : ExecResult ActivationNetworkListResponse),
      p.NetworkListID ≠ "" → p.Environment ≠ 0 → p.Environment ≠ STAGING →
      p.Environment ≠ PRODUCTION →
      p.validate = [] ∧
      activateNetworkList p exec = ⟨.panicked, false, none⟩) ∧
    (∀ p : ActivateNetworkListRequest, p.Environment = STAGING →
      activateNetworkListPath p =
        some (activatePath p.NetworkListID "STAGING")) ∧
    (∀ p : ActivateNetworkListRequest, p.Environment = PRODUCTION →
      activateNetworkListPath p =
        some (activatePath p.NetworkListID "PRODUCTION")) ∧
    (∀ (p : ActivateNetworkListRequest)
        (exec : ExecResult ActivationNetworkListResponse),
      (p.Environment = STAGING ∨ p.Environment = PRODUCTION) →
      (activateNetworkList p exec).outcome ≠ .panicked) := by
  refine ⟨rfl, rfl, ?_, ?_, ?_, ?_, ?_⟩
  · intro e h1 h2
    simp only [STAGING, PRODUCTION] at h1 h2
    simp [environmentString, h1, h2]
  · intro p exec hid henv h1 h2
    simp only [STAGING, PRODUCTION] at h1 h2
    constructor
    · simp [ActivateNetworkListRequest.validate, hid, henv]
    · simp [activateNetworkList, ActivateNetworkListRequest.validate, hid,
        henv, activateNetworkListPath, environmentString, h1, h2]
  · intro p h
    simp [activateNetworkListPath, environmentString, h, STAGING]
  · intro p h
    simp [activateNetworkListPath, environmentString, h, PRODUCTION]
  · intro p exec henv
    rcases henv with h | h <;>
      rcases hv : p.validate with _ | ⟨f, fs⟩ <;>
      simp [activateNetworkList, hv, activateNetworkListPath,
        environmentString, h, STAGING, PRODUCTION, finishExec] <;>
      cases exec <;>
      simp [finishExec] <;>
      split <;>
      simp

/-- C10 witness: a concrete activation request with environment 3 passes
validation and then panics while rendering the environment segment. -/
theorem claim_C10_witness :
    ActivateNetworkListRequest.validate ⟨"x", 3, "", []⟩ = [] ∧
    activateNetworkList ⟨"x", 3, "", []⟩
        (.response 200 emptyActivationResponse) =
      ⟨.panicked, false, none⟩ := by
  exact claim_C10_environment_string_panics.2.2.2.1 ⟨"x", 3, "", []⟩
    (.response 200 emptyActivationResponse) (by decide) (by decide)
    (by decide) (by decide)

end AkamaiGo
